import Mathlib

/-!
Shallow embedding of the LLM-News pipeline state handling: the MongoDB
article operations of `src/database/mongodb.py`, the retry / fallback logic
of `src/agents/image_creation_agent.py`, and the broadcast logic of
`src/agents/telegram_bot_agent.py`.

Modelling conventions:
* Free-form text (titles, LLM responses, prompts, teasers) is `List Char`,
  with string primitives (`trim_text`, `split_on_nl`, `remove_all`,
  `starts_with`) defined here so every function is kernel-executable;
  short identifier-like fields (status, url, model names, paths) are `String`.
* Timestamps (`createdAt`, `updatedAt`, `processed_at`,
  `images_generated_at`, `telegram_broadcast_at`) and log output are not
  modelled.  File paths are abbreviated to their basenames (the per-article
  hash directory prefix is dropped).
* Network calls are oracles: a function from attempt index (and provider
  model) to the outcome the external service produced.  `time.sleep` calls
  are recorded in a list of waited durations (in seconds).
* MongoDB single-document updates are atomic; `update_one` here applies the
  per-document transformation to the documents matching the filter and
  returns the `modified_count > 0` flag (a matched document always has its
  `updatedAt` changed, so matched implies modified).  `_id` values are
  unique in a collection, so mapping over all matches coincides with
  Mongo's first-match update.
-/

namespace LLMNews

/-! ### Text primitives (Python `str` operations used by the agents) -/

/-- Free-form text, modelled as a list of characters. -/
abbrev Text := List Char

/-- Whitespace recognised by Python's `str.strip()` (the characters that
occur in practice). -/
def is_ws (c : Char) : Bool :=
  c == ' ' || c == '\t' || c == '\n' || c == '\r'

/-- Python `str.strip()`: drop leading and trailing whitespace. -/
def trim_text (s : Text) : Text :=
  ((s.dropWhile is_ws).reverse.dropWhile is_ws).reverse

/-- Python `str.startswith(pat)`. -/
def starts_with : Text → Text → Bool
  | [], _ => true
  | _ :: _, [] => false
  | p :: ps, c :: cs => p == c && starts_with ps cs

/-- Python `str.split('\n')`: split into lines at newline characters. -/
def split_on_nl : Text → List Text
  | [] => [[]]
  | c :: rest =>
    match split_on_nl rest with
    | [] => [[]]
    | h :: t => if c == '\n' then [] :: h :: t else (c :: h) :: t

/-- Worker for `remove_all`, structurally recursive on a fuel argument so
that it reduces in the kernel; each step consumes at least one character,
so fuel `s.length` always suffices. -/
def remove_all_fuel (pat : Text) : Nat → Text → Text
  | 0, _ => []
  | _ + 1, [] => []
  | fuel + 1, c :: cs =>
    if pat ≠ [] && starts_with pat (c :: cs) then
      remove_all_fuel pat fuel (List.drop (pat.length - 1) cs)
    else
      c :: remove_all_fuel pat fuel cs

/-- Python `str.replace(pat, '')`: delete every occurrence of `pat`. -/
def remove_all (pat s : Text) : Text :=
  remove_all_fuel pat s.length s

/-! ### Data model (article documents of the `articles` collection) -/

/-- One image entry as written by the image creation agent
(`_generate_images_for_article`): a saved file path and the prompt used.
The agent itself never writes a `url` field, but the incomplete-image query
and the broadcast code read one, so it is carried as an optional field. -/
structure ImageRef where
  path : String
  prompt : Text
  url : Option String
deriving DecidableEq

/-- The `images` sub-document: one website slot, one telegram slot, and an
instagram gallery (the Asset Set). -/
structure ImageSlots where
  website : Option ImageRef
  telegram : Option ImageRef
  instagram : List ImageRef
deriving DecidableEq

/-- The `platforms.telegram` sub-document (only the teaser is read by the
broadcast path). -/
structure TelegramContent where
  teaser : Text
deriving DecidableEq

/-- The `platforms` sub-document. -/
structure Platforms where
  telegram : Option TelegramContent
deriving DecidableEq

/-- An article document.  `image_retry_count` and `telegram_broadcast` are
optional because the corresponding MongoDB fields are absent until first
written. -/
structure Article where
  id : Nat
  url : String
  title : Text
  status : String
  platforms : Platforms
  images : Option ImageSlots
  image_prompts : Option (List Text)
  image_retry_count : Option Nat
  telegram_broadcast : Option Bool
deriving DecidableEq

/-- A telegram subscriber (`chat_id` may be missing; the broadcast loop
skips such records). -/
structure Subscriber where
  chat_id : Option Nat
deriving DecidableEq

/-! ### Per-document update operations (`src/database/mongodb.py`) -/

/-- Set the `status` field (the `$set` payload shared by
`update_article_status` and `mark_article_generating_images`). -/
def with_status (a : Article) (s : String) : Article :=
  { a with status := s }

/-- `update_article_curated_content`: sets `status` to `'curated'` (the
curated payload fields are outside the scope of the claims). -/
def update_article_curated_content (a : Article) : Article :=
  with_status a "curated"

/-- `update_article_images`: stores the generated image data and commits
`status` to `'processed'` unconditionally. -/
def update_article_images (a : Article) (im : ImageSlots) (ps : List Text) : Article :=
  { a with status := "processed", images := some im, image_prompts := some ps }

/-- Current value of `image_retry_count`, reading a missing field as `0`
(as `$inc` and `get_article_retry_count` do). -/
def retry_val (a : Article) : Nat :=
  (a.image_retry_count).getD 0

/-- `mark_article_for_image_retry`: `$set` status back to `'curated'`,
`$inc` the retry count by 1 (a missing field is created as 1), and
`$unset` the stale `images` and `image_prompts` fields. -/
def mark_article_for_image_retry (a : Article) : Article :=
  { a with status := "curated",
           image_retry_count := some (retry_val a + 1),
           images := none,
           image_prompts := none }

/-- `mark_article_broadcasted`: `$set` the delivery marker. -/
def mark_article_broadcasted (a : Article) : Article :=
  { a with telegram_broadcast := some true }

/-! ### Store-level operations (`src/database/mongodb.py`) -/

/-- `collection.update_one({'_id': id}, ...)`: the filter matches on `_id`
only.  Returns the updated store and the `modified_count > 0` flag. -/
def update_one (store : List Article) (id : Nat) (f : Article → Article) :
    List Article × Bool :=
  (store.map fun b => if b.id == id then f b else b,
   store.any fun b => b.id == id)

/-- `update_article_status`: `update_one({'_id': id}, {'$set': {'status': new}})`. -/
def update_article_status (store : List Article) (id : Nat) (new_status : String) :
    List Article × Bool :=
  update_one store id (fun a => with_status a new_status)

/-- `mark_article_generating_images`: `update_one({'_id': id},
{'$set': {'status': 'generating_images'}})`. -/
def mark_article_generating_images (store : List Article) (id : Nat) :
    List Article × Bool :=
  update_one store id (fun a => with_status a "generating_images")

/-- Outcome of a single insert (`insert_one` either succeeds or raises
`DuplicateKeyError` on the unique `url` index created in `connect`). -/
inductive InsertOutcome
  | inserted
  | duplicate
deriving DecidableEq

/-- The counts dictionary returned by `insert_articles`.  The `errors`
count corresponds to `PyMongoError`s other than duplicates; the store in
this model is always reachable, so it stays 0. -/
structure InsertCounts where
  inserted : Nat
  duplicates : Nat
  errors : Nat
deriving DecidableEq

/-- One `insert_one` call: the unique index on `url` (created in
`connect`) rejects an article whose `url` is already present; otherwise
the article is stored with `status := 'raw'`. -/
def insert_one_article (store : List Article) (art : Article) :
    List Article × InsertOutcome :=
  if store.any (fun b => b.url == art.url) then (store, .duplicate)
  else (store ++ [with_status art "raw"], .inserted)

/-- `insert_articles`: insert a batch one by one, counting inserted
articles and duplicates. -/
def insert_articles : List Article → List Article → List Article × InsertCounts
  | store, [] => (store, ⟨0, 0, 0⟩)
  | store, art :: rest =>
    let step := insert_one_article store art
    let r := insert_articles step.1 rest
    match step.2 with
    | .inserted => (r.1, { r.2 with inserted := r.2.inserted + 1 })
    | .duplicate => (r.1, { r.2 with duplicates := r.2.duplicates + 1 })

/-! ### The incomplete-image selection query
(`get_articles_with_incomplete_images`).

The Python source builds the filter as a dict literal with the key `'$or'`
written twice; Python dict literals keep only the last binding of a
duplicated key, so the first `'$or'` (the missing-slot disjunction) is
dropped from the query that is actually sent.  The literal is modelled as
an association list of (key, clause) pairs and resolved with
last-binding-wins semantics. -/

/-- `MAX_RETRIES` of `get_articles_with_incomplete_images`. -/
def MAX_RETRIES : Nat := 3

/-- The first `'$or'` value: some Asset Set slot is missing.  A missing
`images` sub-document makes `'images.website': None` match (Mongo null
queries match absent paths); `$size`/`$elemMatch` require an actual
array. -/
def incomplete_images_or (a : Article) : Bool :=
  match a.images with
  | none => true
  | some im =>
      im.website.isNone || im.telegram.isNone ||
        decide (im.instagram.length = 0) || im.instagram.any (fun e => e.url.isNone)

/-- The second `'$or'` value: `image_retry_count` absent or below
`MAX_RETRIES`. -/
def retry_under_max_or (a : Article) : Bool :=
  match a.image_retry_count with
  | none => true
  | some n => decide (n < MAX_RETRIES)

/-- The four entries of the query dict literal, in source order. -/
inductive QueryClause
  | statusProcessed
  | imagesExists
  | orIncomplete
  | orRetryUnderMax
deriving DecidableEq

/-- The dict key each entry is written under. -/
def clause_key : QueryClause → String
  | .statusProcessed => "status"
  | .imagesExists => "images"
  | .orIncomplete => "$or"
  | .orRetryUnderMax => "$or"

/-- Whether an article satisfies one clause. -/
def clause_holds (a : Article) : QueryClause → Bool
  | .statusProcessed => a.status == "processed"
  | .imagesExists => a.images.isSome
  | .orIncomplete => incomplete_images_or a
  | .orRetryUnderMax => retry_under_max_or a

/-- The query dict literal of the source, in source order. -/
def incomplete_query_literal : List QueryClause :=
  [.statusProcessed, .imagesExists, .orIncomplete, .orRetryUnderMax]

/-- Python dict-literal semantics: a later binding of the same key
overwrites an earlier one. -/
def dict_resolve : List QueryClause → List QueryClause
  | [] => []
  | c :: rest =>
    if rest.any (fun d => clause_key d == clause_key c) then dict_resolve rest
    else c :: dict_resolve rest

/-- The clauses of the filter actually sent to MongoDB. -/
def incomplete_query_effective : List QueryClause :=
  dict_resolve incomplete_query_literal

/-- Whether an article matches the filter actually sent. -/
def matches_incomplete_query (a : Article) : Bool :=
  incomplete_query_effective.all (clause_holds a)

/-- `get_articles_with_incomplete_images(limit)`: `find(query).limit(limit)`. -/
def get_articles_with_incomplete_images (store : List Article) (limit : Nat) :
    List Article :=
  (store.filter matches_incomplete_query).take limit

/-! ### Broadcast selection (`get_articles_to_broadcast`) -/

/-- The broadcast filter: status `'processed'` and `telegram_broadcast`
not equal to `True` (which also matches documents without the field). -/
def broadcast_query (a : Article) : Bool :=
  a.status == "processed" && !(a.telegram_broadcast == some true)

/-- `get_articles_to_broadcast(limit)`.  The source additionally sorts the
filtered documents by `processed_at` descending before applying the limit;
the sort only permutes the filtered list and is not modelled (timestamps
are outside the model). -/
def get_articles_to_broadcast (store : List Article) (limit : Nat) :
    List Article :=
  (store.filter broadcast_query).take limit

/-! ### LLM call with rate-limit retry (`_call_llm`) -/

/-- Outcome of one Groq chat-completion call. -/
inductive LlmOutcome
  | ok (text : Text)
  | rate_limited
  | other_error
deriving DecidableEq

/-- `_call_llm` retry loop, from attempt index `att` with the given number
of remaining attempts (`max_retries = 3` at the top call).  Returns the
response text (`none` models the raised exception, both for a non-rate-limit
error and for rate-limit exhaustion) together with the list of `time.sleep`
durations: `(2 ** attempt) * 10` seconds before a rate-limit retry and the
fixed 2-second pacing delay after a success. -/
def call_llm_from (o : Nat → LlmOutcome) : Nat → Nat → Option Text × List Nat
  | _, 0 => (none, [])
  | att, rem + 1 =>
    match o att with
    | .ok t => (some (trim_text t), [2])
    | .rate_limited =>
      let r := call_llm_from o (att + 1) rem
      (r.1, 2 ^ att * 10 :: r.2)
    | .other_error => (none, [])

/-! ### Prompt generation (`_generate_image_prompts`) -/

/-- The quality suffix appended to every parsed prompt. -/
def quality_suffix : Text :=
  ", professional photography, realistic, high quality, sharp focus, natural lighting, photojournalism style".data

/-- The three markers tried, in order, against each response line. -/
def prompt_markers : List Text :=
  ["PROMPT_1:".data, "PROMPT_2:".data, "PROMPT_3:".data]

/-- Body of the per-line loop, on an already-stripped line: the first
matching marker is removed from the line (everywhere, as `str.replace`
does), the remainder stripped, and kept with the quality suffix when
non-empty. -/
def parse_line_trimmed (l : Text) : Option Text :=
  match prompt_markers.find? (fun m => starts_with m l) with
  | some m =>
    if trim_text (remove_all m l) = [] then none
    else some (trim_text (remove_all m l) ++ quality_suffix)
  | none => none

/-- One line of the response: stripped, then parsed. -/
def parse_line (line : Text) : Option Text :=
  parse_line_trimmed (trim_text line)

/-- The prompts parsed from the raw LLM response, in line order. -/
def parse_prompts (resp : Text) : List Text :=
  (split_on_nl resp).filterMap parse_line

/-- The deterministic fallback description synthesized from the first 40
characters of the article title. -/
def fallback_prompt (title : Text) : Text :=
  "Modern technology and digital devices representing ".data ++ title.take 40 ++
    ", sleek design, professional product photography, 8k, dramatic lighting".data ++
    quality_suffix

/-- `_generate_image_prompts`, given the raw LLM response text: parse the
response, pad with fallback prompts while fewer than 3, return the first 3. -/
def generate_image_prompts (title resp : Text) : List Text :=
  let ps := parse_prompts resp
  (ps ++ List.replicate (3 - ps.length) (fallback_prompt title)).take 3

/-! ### Image download with provider fallback (`_download_image`) -/

/-- Outcome of one HTTP GET against the image provider: a response with
status code and body length, a timeout, or another raised exception. -/
inductive DlOutcome
  | http (status : Nat) (content_len : Nat)
  | timeout
  | exn
deriving DecidableEq

/-- Result of the attempt loop for one provider model: whether an image
was saved, the `time.sleep` durations (seconds), and how many attempts
were made. -/
structure ProviderRun where
  success : Bool
  sleeps : List Nat
  attempts : Nat
deriving DecidableEq

/-- The per-model attempt loop of `_download_image`, from attempt index
`att` with the given remaining attempts (`max_retries = 3` at the top):
a 200 response longer than 1000 bytes succeeds; a 200 response at most
1000 bytes ("response too small") retries immediately with no sleep; a
502/503/504 response or a timeout sleeps `(2 ** attempt) * 2` seconds and
retries; any other status or exception abandons the model at once. -/
def try_provider_from (o : Nat → DlOutcome) : Nat → Nat → ProviderRun
  | _, 0 => ⟨false, [], 0⟩
  | att, rem + 1 =>
    match o att with
    | .http st len =>
      if st = 200 then
        if 1000 < len then ⟨true, [], 1⟩
        else
          let r := try_provider_from o (att + 1) rem
          ⟨r.success, r.sleeps, r.attempts + 1⟩
      else if st = 502 ∨ st = 503 ∨ st = 504 then
        let r := try_provider_from o (att + 1) rem
        ⟨r.success, 2 ^ att * 2 :: r.sleeps, r.attempts + 1⟩
      else ⟨false, [], 1⟩
    | .timeout =>
      let r := try_provider_from o (att + 1) rem
      ⟨r.success, 2 ^ att * 2 :: r.sleeps, r.attempts + 1⟩
    | .exn => ⟨false, [], 1⟩

/-- `models_to_try` of `_download_image`: fixed preference order. -/
def models_to_try : List String :=
  ["turbo", "flux", "seedream"]

/-- The record of one model's attempt loop inside a download. -/
structure ModelRun where
  model : String
  run : ProviderRun
deriving DecidableEq

/-- The outer model loop of `_download_image`: try each model's attempt
loop in order, stopping at the first success.  The oracle is indexed by
model name and attempt index.  Returns the overall success and the log of
per-model runs, in the order performed. -/
def download_image_go (o : String → Nat → DlOutcome) :
    List String → Bool × List ModelRun
  | [] => (false, [])
  | m :: rest =>
    let r := try_provider_from (o m) 0 3
    if r.success then (true, [⟨m, r⟩])
    else
      let rest_run := download_image_go o rest
      (rest_run.1, ⟨m, r⟩ :: rest_run.2)

/-- `_download_image`: the model loop over `models_to_try`. -/
def download_image (o : String → Nat → DlOutcome) : Bool × List ModelRun :=
  download_image_go o models_to_try

/-! ### Asset Set generation (`_generate_images_for_article`) -/

/-- `_generate_images_for_article`, given one download oracle per slot and
the three prompts: each failed slot stays `none` / is not appended; the
website and telegram files are reused as the first two instagram entries. -/
def generate_images_for_article (o1 o2 o3 : String → Nat → DlOutcome)
    (p1 p2 p3 : Text) : ImageSlots :=
  let s1 := (download_image o1).1
  let s2 := (download_image o2).1
  let s3 := (download_image o3).1
  { website := if s1 then some ⟨"website_01.jpg", p1, none⟩ else none
    telegram := if s2 then some ⟨"telegram_01.jpg", p2, none⟩ else none
    instagram :=
      (if s1 then [⟨"website_01.jpg", p1, none⟩] else []) ++
        (if s2 then [⟨"telegram_01.jpg", p2, none⟩] else []) ++
        (if s3 then [⟨"instagram_01.jpg", p3, none⟩] else []) }

/-- `process_article` of the image creation agent, for an attempt in which
the LLM prompt call returned `resp`: mark the article as generating
images, build the prompts, generate the Asset Set, and commit the result
with `update_article_images` — with no condition on how many slots
succeeded. -/
def process_article (a : Article) (resp : Text)
    (o1 o2 o3 : String → Nat → DlOutcome) : Article :=
  let a1 := with_status a "generating_images"
  let prompts := generate_image_prompts a.title resp
  let images := generate_images_for_article o1 o2 o3
    (prompts.getD 0 []) (prompts.getD 1 []) (prompts.getD 2 [])
  update_article_images a1 images prompts

/-! ### Telegram broadcast (`broadcast_article` of the bot agent) -/

/-- The result dictionary of `broadcast_article`, extended with whether
the delivery marker write was reached and how many endpoints were
contacted. -/
structure BroadcastOutcome where
  sent : Nat
  failed : Nat
  marker_set : Bool
  contacted : Nat
deriving DecidableEq

/-- `platforms.get('telegram', {}).get('teaser', '')`. -/
def teaser_of (a : Article) : Text :=
  match a.platforms.telegram with
  | none => []
  | some t => t.teaser

/-- The subscriber fan-out loop: subscribers without a `chat_id` are
skipped; each send outcome comes from the oracle; failures are counted and
do not stop the loop.  Returns (sent, failed, contacted). -/
def broadcast_subscribers (send_ok : Nat → Bool) : List Subscriber → Nat × Nat × Nat
  | [] => (0, 0, 0)
  | s :: rest =>
    let r := broadcast_subscribers send_ok rest
    match s.chat_id with
    | none => r
    | some c =>
      if send_ok c then (r.1 + 1, r.2.1, r.2.2 + 1)
      else (r.1, r.2.1 + 1, r.2.2 + 1)

/-- `broadcast_article`: disabled bots, articles without a teaser, and
subscriber mode with no subscribers return early; otherwise the channel
send or the subscriber loop runs and `mark_article_broadcasted` is called
once the attempt loop finishes, regardless of how many sends succeeded.
Returns the result counts and the (possibly marked) article document. -/
def broadcast_article (enabled : Bool) (channel_id : String)
    (subs : List Subscriber) (channel_ok : Bool) (send_ok : Nat → Bool)
    (a : Article) : BroadcastOutcome × Article :=
  if enabled = false then (⟨0, 0, false, 0⟩, a)
  else if teaser_of a = [] then (⟨0, 0, false, 0⟩, a)
  else if channel_id ≠ "" then
    (if channel_ok then ⟨1, 0, true, 1⟩ else ⟨0, 1, true, 1⟩,
     mark_article_broadcasted a)
  else if subs = [] then (⟨0, 0, false, 0⟩, a)
  else
    let r := broadcast_subscribers send_ok subs
    (⟨r.1, r.2.1, true, r.2.2⟩, mark_article_broadcasted a)

/-! ### The pipeline steps that write an article document

Each constructor is one of the article writes performed by the agents;
`retry_sweep` carries the selection guard because `retry_failed_images`
only calls `mark_article_for_image_retry` on articles returned by
`get_articles_with_incomplete_images`, i.e. articles matching the
incomplete-image filter. -/
inductive PipelineStep : Article → Article → Prop
  | curate (a : Article) :
      PipelineStep a (update_article_curated_content a)
  | set_status (a : Article) (s : String) :
      PipelineStep a (with_status a s)
  | set_images (a : Article) (im : ImageSlots) (ps : List Text) :
      PipelineStep a (update_article_images a im ps)
  | image_process (a : Article) (resp : Text) (o1 o2 o3 : String → Nat → DlOutcome) :
      PipelineStep a (process_article a resp o1 o2 o3)
  | retry_sweep (a : Article) :
      matches_incomplete_query a = true →
      PipelineStep a (mark_article_for_image_retry a)
  | broadcast_mark (a : Article) :
      PipelineStep a (mark_article_broadcasted a)

/-! ### Concrete sample documents used by witnesses and counterexamples -/

/-- An article in status `processed` whose Asset Set is entirely missing
and that has never been retried. -/
def sample_incomplete : Article :=
  { id := 1, url := "https://x/1", title := "Tesla news".data,
    status := "processed", platforms := ⟨none⟩,
    images := some ⟨none, none, []⟩, image_prompts := none,
    image_retry_count := none, telegram_broadcast := none }

/-- An article parked at the retry ceiling. -/
def sample_parked : Article :=
  { sample_incomplete with
    id := 2
    url := "https://x/2"
    image_retry_count := some 3 }

/-- An article in status `processed` that is not in the predecessor state
of the `generating_images` transition. -/
def sample_not_curated : Article :=
  { id := 7, url := "https://x/7", title := [], status := "processed",
    platforms := ⟨none⟩, images := none, image_prompts := none,
    image_retry_count := none, telegram_broadcast := none }

/-- A fully complete image reference (non-null `url`). -/
def complete_ref (p : String) : ImageRef :=
  ⟨p, "prompt".data, some "https://cdn/x.jpg"⟩

/-- An article whose Asset Set is complete in every slot and that has
retry count 0: it needs no more assets. -/
def sample_complete : Article :=
  { id := 3, url := "https://x/3", title := [], status := "processed",
    platforms := ⟨none⟩,
    images := some ⟨some (complete_ref "w.jpg"), some (complete_ref "t.jpg"),
      [complete_ref "w.jpg", complete_ref "t.jpg", complete_ref "i.jpg"]⟩,
    image_prompts := none, image_retry_count := some 0,
    telegram_broadcast := none }

/-- A processed article with a non-empty telegram teaser and no delivery
marker. -/
def sample_broadcastable : Article :=
  { id := 4, url := "https://x/4", title := [], status := "processed",
    platforms := ⟨some ⟨"hot take".data⟩⟩,
    images := some ⟨none, none, []⟩, image_prompts := none,
    image_retry_count := none, telegram_broadcast := none }

/-- A processed article whose telegram teaser is empty. -/
def sample_no_teaser : Article :=
  { id := 5, url := "https://x/5", title := [], status := "processed",
    platforms := ⟨some ⟨[]⟩⟩, images := some ⟨none, none, []⟩,
    image_prompts := none, image_retry_count := none,
    telegram_broadcast := none }

/-- A raw article as handed to `insert_articles`. -/
def sample_raw (u : String) : Article :=
  { id := 10, url := u, title := "t".data, status := "",
    platforms := ⟨none⟩, images := none, image_prompts := none,
    image_retry_count := none, telegram_broadcast := none }

/-- An oracle whose every request fails with a non-transient client error. -/
def always_404 : String → Nat → DlOutcome :=
  fun _ _ => .http 404 0

/-- An oracle whose every request returns a 200 with an implausibly small
body (1000 bytes or fewer). -/
def tiny_oracle : Nat → DlOutcome :=
  fun _ => .http 200 100

/-- An oracle whose every request returns HTTP 502. -/
def always_502 : Nat → DlOutcome :=
  fun _ => .http 502 0

/-- An oracle whose every request times out. -/
def always_timeout : Nat → DlOutcome :=
  fun _ => .timeout

/-- An LLM oracle that is rate-limited on every attempt. -/
def always_rate_limited : Nat → LlmOutcome :=
  fun _ => .rate_limited

/-! ### Helper lemmas -/

set_option maxRecDepth 4000

/-- The duplicated `'$or'` key resolves to the retry-count clause only. -/
theorem effective_clauses_eq :
    incomplete_query_effective =
      [.statusProcessed, .imagesExists, .orRetryUnderMax] := by
  decide

/-- An article matching the effective incomplete-image filter satisfies
the retry-count clause. -/
theorem matches_imp_retry_clause {a : Article}
    (h : matches_incomplete_query a = true) : retry_under_max_or a = true := by
  rw [matches_incomplete_query, effective_clauses_eq] at h
  simp only [List.all_cons, List.all_nil, Bool.and_true, Bool.and_eq_true,
    clause_holds] at h
  exact h.2.2

/-- The retry-count clause bounds the stored retry value. -/
theorem retry_under_lt {a : Article} (h : retry_under_max_or a = true) :
    retry_val a < 3 := by
  unfold retry_under_max_or MAX_RETRIES at h
  cases hc : a.image_retry_count with
  | none => simp [retry_val, hc]
  | some n =>
    rw [hc] at h
    simp only [decide_eq_true_eq] at h
    simpa [retry_val, hc] using h

/-- A retry regression increments the retry value by exactly one. -/
theorem retry_val_mark (a : Article) :
    retry_val (mark_article_for_image_retry a) = retry_val a + 1 := rfl

/-- Every pipeline write keeps the retry value at or below 3 (only the
guarded sweep increments it, and only below the ceiling). -/
theorem step_retry_le {a b : Article} (hs : PipelineStep a b)
    (h : retry_val a ≤ 3) : retry_val b ≤ 3 := by
  cases hs with
  | curate => exact h
  | set_status s => exact h
  | set_images im ps => exact h
  | image_process resp o1 o2 o3 => exact h
  | broadcast_mark => exact h
  | retry_sweep hm =>
    have hlt := retry_under_lt (matches_imp_retry_clause hm)
    rw [retry_val_mark]
    omega

/-- The retry value of any article reachable from a fresh document stays
at or below 3. -/
theorem reachable_retry_le {a0 a : Article} (h0 : a0.image_retry_count = none)
    (h : Relation.ReflTransGen PipelineStep a0 a) : retry_val a ≤ 3 := by
  induction h with
  | refl => simp [retry_val, h0]
  | tail _ hstep ih => exact step_retry_le hstep ih

/-- An article whose retry count reached 3 no longer matches the sweep
filter. -/
theorem parked_not_matching {a : Article} (h : a.image_retry_count = some 3) :
    matches_incomplete_query a = false := by
  rw [matches_incomplete_query, effective_clauses_eq]
  simp [clause_holds, retry_under_max_or, h, MAX_RETRIES]

/-- Articles returned by the sweep query satisfy the retry-count clause. -/
theorem selected_under_ceiling {store : List Article} {limit : Nat} {a : Article}
    (h : a ∈ get_articles_with_incomplete_images store limit) :
    retry_under_max_or a = true :=
  matches_imp_retry_clause (List.mem_filter.mp (List.mem_of_mem_take h)).2

/-! ### Claim theorems -/

/-- Claim C1: for every article, `image_retry_count` never exceeds 3 — the
retry sweep's selection query only returns articles whose retry count is
absent or strictly below 3, each selected article is incremented by exactly
1 per regression, so any article reachable from a fresh document keeps a
retry value at most 3, and an article whose count reached 3 never matches
the Asset Retry Engine's selection filter again. -/
theorem C1_retry_ceiling :
    (∀ (store : List Article) (limit : Nat) (a : Article),
      a ∈ get_articles_with_incomplete_images store limit →
      retry_under_max_or a = true) ∧
    (∀ a : Article,
      retry_val (mark_article_for_image_retry a) = retry_val a + 1) ∧
    (∀ a0 a : Article, a0.image_retry_count = none →
      Relation.ReflTransGen PipelineStep a0 a → retry_val a ≤ 3) ∧
    (∀ a : Article, a.image_retry_count = some 3 →
      matches_incomplete_query a = false) :=
  ⟨fun _ _ _ h => selected_under_ceiling h,
   fun a => retry_val_mark a,
   fun _ _ h0 h => reachable_retry_le h0 h,
   fun _ h => parked_not_matching h⟩

/-- Witness for C1 at concrete documents: a never-retried processed
article with an empty Asset Set is under the ceiling, its regression sets
the count to exactly one more, its retry value is at most 3, and the
parked article (count 3) does not match the sweep filter. -/
theorem C1_retry_ceiling_witness :
    retry_under_max_or sample_incomplete = true ∧
    retry_val (mark_article_for_image_retry sample_incomplete) =
      retry_val sample_incomplete + 1 ∧
    retry_val sample_incomplete ≤ 3 ∧
    matches_incomplete_query sample_parked = false :=
  ⟨C1_retry_ceiling.1 [sample_incomplete] 5 sample_incomplete (by decide),
   C1_retry_ceiling.2.1 sample_incomplete,
   C1_retry_ceiling.2.2.1 sample_incomplete sample_incomplete (by decide)
     Relation.ReflTransGen.refl,
   C1_retry_ceiling.2.2.2 sample_parked (by decide)⟩

/-- Claim C2: after the illustration attempt completes, the article's
status is committed to `processed` unconditionally regardless of slot
outcomes; and when every provider fails for every slot, the stored Asset
Set has null website and telegram slots and an empty instagram gallery. -/
theorem C2_status_committed_unconditionally :
    (∀ (a : Article) (resp : Text) (o1 o2 o3 : String → Nat → DlOutcome),
      (process_article a resp o1 o2 o3).status = "processed") ∧
    (∀ (a : Article) (resp : Text) (o1 o2 o3 : String → Nat → DlOutcome),
      (download_image o1).1 = false → (download_image o2).1 = false →
      (download_image o3).1 = false →
      (process_article a resp o1 o2 o3).images = some ⟨none, none, []⟩) := by
  constructor
  · intro a resp o1 o2 o3
    rfl
  · intro a resp o1 o2 o3 h1 h2 h3
    simp [process_article, update_article_images, generate_images_for_article,
      h1, h2, h3]

/-- Witness for C2: with the oracle that always returns HTTP 404, every
download fails, and the processed article carries an entirely empty Asset
Set. -/
theorem C2_status_witness :
    (download_image always_404).1 = false ∧
    (process_article sample_incomplete [] always_404 always_404 always_404).status
      = "processed" ∧
    (process_article sample_incomplete [] always_404 always_404 always_404).images
      = some ⟨none, none, []⟩ :=
  ⟨by decide,
   C2_status_committed_unconditionally.1 sample_incomplete [] always_404 always_404
     always_404,
   C2_status_committed_unconditionally.2 sample_incomplete [] always_404 always_404
     always_404 (by decide) (by decide) (by decide)⟩

/-- Claim C3 counterexample: the stage-transition writes match on `_id`
only — `mark_article_generating_images` commits on an article whose
current status is `processed`, not the predecessor state `curated`, so a
transition is not conditional on the expected current status. -/
theorem C3_counterexample :
    sample_not_curated.status ≠ "curated" ∧
    (mark_article_generating_images [sample_not_curated] 7).2 = true ∧
    (mark_article_generating_images [sample_not_curated] 7).1.map Article.status
      = ["generating_images"] :=
  ⟨by decide, by decide, by decide⟩

/-- Claim C3 amended: every stage-transition write is an atomic
single-document update whose filter matches on `_id` only; it commits for
an article in any current status, so it does not guard against concurrent
claims of the same item. -/
theorem C3_id_only_update (store : List Article) (id : Nat) (s : String)
    (a : Article) (ha : a ∈ store) (hid : a.id = id) :
    with_status a s ∈ (update_article_status store id s).1 ∧
    with_status a "generating_images" ∈ (mark_article_generating_images store id).1 := by
  have hbeq : (a.id == id) = true := by simp [hid]
  constructor
  · have h := List.mem_map_of_mem
      (fun b => if b.id == id then with_status b s else b) ha
    simp only [hbeq, if_pos] at h
    simpa [update_article_status, update_one] using h
  · have h := List.mem_map_of_mem
      (fun b => if b.id == id then with_status b "generating_images" else b) ha
    simp only [hbeq, if_pos] at h
    simpa [mark_article_generating_images, update_one] using h

/-- Witness for the amended C3 at a concrete store: the processed article
is transitioned by both writes despite not being in the predecessor
state. -/
theorem C3_id_only_update_witness :
    with_status sample_not_curated "filtered"
      ∈ (update_article_status [sample_not_curated] 7 "filtered").1 ∧
    with_status sample_not_curated "generating_images"
      ∈ (mark_article_generating_images [sample_not_curated] 7).1 :=
  C3_id_only_update [sample_not_curated] 7 "filtered" sample_not_curated
    (by decide) (by decide)

/-- Claim C4: the selection predicate of the incomplete-image sweep is not
the conjunction of "needs more assets" and "under the retry ceiling": the
duplicated `'$or'` dict key drops the missing-slot disjunction, so an
article with a fully complete Asset Set and retry count 0 matches the
query actually sent and is returned by
`get_articles_with_incomplete_images`, although the code's own comments
require some image to be missing. -/
theorem C4_duplicate_or_key_bug :
    incomplete_query_effective =
      [.statusProcessed, .imagesExists, .orRetryUnderMax] ∧
    incomplete_images_or sample_complete = false ∧
    retry_under_max_or sample_complete = true ∧
    matches_incomplete_query sample_complete = true ∧
    get_articles_with_incomplete_images [sample_complete] 5 = [sample_complete] :=
  ⟨by decide, by decide, by decide, by decide, by decide⟩

/-- The quality suffix is non-empty. -/
theorem quality_suffix_ne_nil : quality_suffix ≠ [] := by decide

/-- Anything with the quality suffix appended is non-empty. -/
theorem append_quality_ne_nil (t : Text) : t ++ quality_suffix ≠ [] := by
  intro h
  exact quality_suffix_ne_nil (List.append_eq_nil.mp h).2

/-- The fallback prompt is non-empty for every title. -/
theorem fallback_ne_nil (title : Text) : fallback_prompt title ≠ [] := by
  intro h
  have h1 := (List.append_eq_nil.mp h).1
  have h2 := (List.append_eq_nil.mp h1).1
  have h3 := (List.append_eq_nil.mp h2).1
  exact absurd h3 (by decide)

/-- Every prompt produced from a response line carries the quality
suffix. -/
theorem parse_line_trimmed_shape {l p : Text}
    (h : parse_line_trimmed l = some p) : ∃ t, p = t ++ quality_suffix := by
  unfold parse_line_trimmed at h
  cases hf : prompt_markers.find? (fun m => starts_with m l) with
  | none => rw [hf] at h; cases h
  | some m =>
    rw [hf] at h
    dsimp only at h
    by_cases he : trim_text (remove_all m l) = []
    · rw [if_pos he] at h; cases h
    · rw [if_neg he] at h
      exact ⟨_, (Option.some_inj.mp h).symm⟩

/-- Claim C5: for every article title and every LLM response text, prompt
generation returns exactly 3 prompts, each non-empty — parsed prompts are
padded with the deterministic title-based fallback and the result is
truncated to 3. -/
theorem C5_exactly_three_prompts (title resp : Text) :
    (generate_image_prompts title resp).length = 3 ∧
    ∀ p ∈ generate_image_prompts title resp, p ≠ [] := by
  constructor
  · unfold generate_image_prompts
    simp only [List.length_take, List.length_append, List.length_replicate]
    omega
  · intro p hp
    unfold generate_image_prompts at hp
    have hp2 := List.mem_of_mem_take hp
    rcases List.mem_append.mp hp2 with hL | hR
    · rcases List.mem_filterMap.mp hL with ⟨line, _, hline⟩
      rcases parse_line_trimmed_shape hline with ⟨t, ht⟩
      rw [ht]
      exact append_quality_ne_nil t
    · rw [(List.mem_replicate.mp hR).2]
      exact fallback_ne_nil title

/-- Witness for C5 at a concrete title and a response with no parseable
marker line: the result has length 3 and its fallback member is
non-empty. -/
theorem C5_exactly_three_prompts_witness :
    (generate_image_prompts "Tesla".data "news".data).length = 3 ∧
    fallback_prompt "Tesla".data ≠ [] :=
  ⟨(C5_exactly_three_prompts "Tesla".data "news".data).1,
   (C5_exactly_three_prompts "Tesla".data "news".data).2
     (fallback_prompt "Tesla".data) (by decide)⟩

/-- The per-provider attempt loop never makes more attempts than the
remaining budget. -/
theorem try_provider_attempts_le_fuel (o : Nat → DlOutcome) :
    ∀ rem att, (try_provider_from o att rem).attempts ≤ rem := by
  intro rem
  induction rem with
  | zero => intro att; exact Nat.le_refl 0
  | succ n ih =>
    intro att
    simp only [try_provider_from]
    cases ho : o att with
    | http st len =>
      dsimp only
      split_ifs with h1 h2 h3
      · dsimp only; omega
      · dsimp only
        have := ih (att + 1)
        omega
      · dsimp only
        have := ih (att + 1)
        omega
      · dsimp only; omega
    | timeout =>
      dsimp only
      have := ih (att + 1)
      omega
    | exn => dsimp only; omega

/-- After a non-transient HTTP failure at attempt `k`, the provider loop
never reaches an attempt past `k`: starting at attempt `att ≤ k`, at most
`k + 1 - att` attempts are made before the provider is abandoned. -/
theorem try_provider_break (o : Nat → DlOutcome) (k st len : Nat)
    (hk : o k = .http st len) (h200 : st ≠ 200) (h502 : st ≠ 502)
    (h503 : st ≠ 503) (h504 : st ≠ 504) :
    ∀ rem att, att ≤ k → (try_provider_from o att rem).attempts ≤ k + 1 - att := by
  intro rem
  induction rem with
  | zero => intro att hatt; exact Nat.zero_le _
  | succ n ih =>
    intro att hatt
    by_cases heq : att = k
    · subst heq
      simp only [try_provider_from, hk]
      rw [if_neg h200,
        if_neg (by simp [h502, h503, h504] : ¬(st = 502 ∨ st = 503 ∨ st = 504))]
      dsimp only; omega
    · have hlt : att < k := Nat.lt_of_le_of_ne hatt heq
      simp only [try_provider_from]
      cases ho : o att with
      | http s l =>
        dsimp only
        split_ifs with h1 h2 h3
        · dsimp only; omega
        · dsimp only
          have := ih (att + 1) (by omega)
          omega
        · dsimp only
          have := ih (att + 1) (by omega)
          omega
        · dsimp only; omega
      | timeout =>
        dsimp only
        have := ih (att + 1) (by omega)
        omega
      | exn => dsimp only; omega

/-- If the whole download fails, every provider model was tried, in
order. -/
theorem download_go_all_tried (o : String → Nat → DlOutcome) :
    ∀ ms, (download_image_go o ms).1 = false →
      (download_image_go o ms).2.map ModelRun.model = ms := by
  intro ms
  induction ms with
  | nil => intro _; rfl
  | cons m rest ih =>
    intro h
    by_cases hs : (try_provider_from (o m) 0 3).success = true
    · simp [download_image_go, hs] at h
    · have hsf : (try_provider_from (o m) 0 3).success = false :=
        Bool.not_eq_true _ ▸ hs
      simp only [download_image_go, hsf, Bool.false_eq_true, if_false] at h ⊢
      simpa using ih h

/-- Claim C6: the provider fallback order is fixed as turbo, flux,
seedream; a non-transient HTTP failure (status other than 200/502/503/504)
at attempt `k` abandons the current provider with no attempt past `k`;
when every provider fails, all of them were tried in order; and a slot
whose download fails is recorded as missing while the other slots are
still produced from their own downloads. -/
theorem C6_provider_fallback :
    models_to_try = ["turbo", "flux", "seedream"] ∧
    (∀ (o : Nat → DlOutcome) (rem k st len : Nat), o k = .http st len →
      st ≠ 200 → st ≠ 502 → st ≠ 503 → st ≠ 504 →
      (try_provider_from o 0 rem).attempts ≤ k + 1) ∧
    (∀ o : String → Nat → DlOutcome, (download_image o).1 = false →
      (download_image o).2.map ModelRun.model = models_to_try) ∧
    (∀ (o1 o2 o3 : String → Nat → DlOutcome) (p1 p2 p3 : Text),
      (download_image o2).1 = false →
      (generate_images_for_article o1 o2 o3 p1 p2 p3).telegram = none ∧
      ((download_image o1).1 = true →
        (generate_images_for_article o1 o2 o3 p1 p2 p3).website ≠ none)) := by
  refine ⟨rfl, ?_, ?_, ?_⟩
  · intro o rem k st len hk h200 h502 h503 h504
    have h := try_provider_break o k st len hk h200 h502 h503 h504 rem 0 (Nat.zero_le k)
    simpa using h
  · intro o h
    exact download_go_all_tried o models_to_try h
  · intro o1 o2 o3 p1 p2 p3 h2
    refine ⟨?_, ?_⟩
    · simp [generate_images_for_article, h2]
    · intro h1
      simp [generate_images_for_article, h1]

/-- Witness for C6: an oracle answering HTTP 404 everywhere makes exactly
one attempt before abandoning the provider; with every provider failing,
all three models appear in the log in order and the telegram slot stays
missing. -/
theorem C6_provider_fallback_witness :
    (try_provider_from (always_404 "turbo") 0 3).attempts ≤ 1 ∧
    (download_image always_404).2.map ModelRun.model = models_to_try ∧
    (generate_images_for_article always_404 always_404 always_404 [] [] []).telegram
      = none :=
  ⟨C6_provider_fallback.2.1 (always_404 "turbo") 3 0 404 0 rfl (by decide)
     (by decide) (by decide) (by decide),
   C6_provider_fallback.2.2.1 always_404 (by decide),
   (C6_provider_fallback.2.2.2 always_404 always_404 always_404 [] [] []
     (by decide)).1⟩

/-- Claim C7 counterexample: with every response an implausibly small 200
body, the download loop makes all 3 attempts for the provider but performs
no backoff wait at all — not the claimed 2s, 4s, 8s schedule. -/
theorem C7_counterexample :
    (try_provider_from tiny_oracle 0 3).attempts = 3 ∧
    (try_provider_from tiny_oracle 0 3).sleeps = [] ∧
    (try_provider_from tiny_oracle 0 3).sleeps ≠ [2, 4, 8] :=
  ⟨by decide, by decide, by decide⟩

/-- Claim C7 amended: retries are bounded at 3 attempts per provider;
persistent timeouts and persistent HTTP 502 responses produce the backoff
schedule 2s, 4s, 8s within one provider; an implausibly small 200 response
is retried immediately with no wait; and persistent rate-limit LLM
failures produce the schedule 10s, 20s, 40s and end in the raised
exception. -/
theorem C7_backoff_schedules :
    (∀ (o : Nat → DlOutcome) (att : Nat),
      (try_provider_from o att 3).attempts ≤ 3) ∧
    (try_provider_from always_timeout 0 3).sleeps = [2, 4, 8] ∧
    (try_provider_from always_502 0 3).sleeps = [2, 4, 8] ∧
    (try_provider_from tiny_oracle 0 3).sleeps = [] ∧
    (call_llm_from always_rate_limited 0 3).2 = [10, 20, 40] ∧
    (call_llm_from always_rate_limited 0 3).1 = none :=
  ⟨fun o att => try_provider_attempts_le_fuel o 3 att,
   by decide, by decide, by decide, by decide, by decide⟩

/-- A set delivery marker falsifies the broadcast selection predicate. -/
theorem broadcast_query_false_of_marker {a : Article}
    (h : a.telegram_broadcast = some true) : broadcast_query a = false := by
  simp [broadcast_query, h]

/-- An article with the delivery marker set is never returned by the
broadcast selection query, for any store contents and any limit. -/
theorem marker_not_selected {store : List Article} {limit : Nat} {a : Article}
    (h : a.telegram_broadcast = some true) :
    a ∉ get_articles_to_broadcast store limit := by
  intro hmem
  have h2 := (List.mem_filter.mp (List.mem_of_mem_take hmem)).2
  rw [broadcast_query_false_of_marker h] at h2
  cases h2

/-- Claim C8: the broadcast selection returns only processed articles
without the delivery marker; an article with the marker set is never
re-selected on any later cycle (selection is a pure function of the
store, so this also covers process restarts); and once the delivery
attempt loop of `broadcast_article` finishes — in channel mode or with a
non-empty subscriber list — the marker is written regardless of send
outcomes. -/
theorem C8_at_most_one_dispatch :
    (∀ (store : List Article) (limit : Nat) (a : Article),
      a ∈ get_articles_to_broadcast store limit →
      a.status = "processed" ∧ a.telegram_broadcast ≠ some true) ∧
    (∀ (store : List Article) (limit : Nat) (a : Article),
      a.telegram_broadcast = some true →
      a ∉ get_articles_to_broadcast store limit) ∧
    (∀ a : Article, (mark_article_broadcasted a).telegram_broadcast = some true) ∧
    (∀ (store : List Article) (limit : Nat) (a : Article),
      mark_article_broadcasted a ∉ get_articles_to_broadcast store limit) ∧
    (∀ (ch : String) (subs : List Subscriber) (chok : Bool) (sok : Nat → Bool)
      (a : Article), teaser_of a ≠ [] → ch ≠ "" →
      (broadcast_article true ch subs chok sok a).1.marker_set = true ∧
      (broadcast_article true ch subs chok sok a).2 = mark_article_broadcasted a) ∧
    (∀ (subs : List Subscriber) (chok : Bool) (sok : Nat → Bool) (a : Article),
      teaser_of a ≠ [] → subs ≠ [] →
      (broadcast_article true "" subs chok sok a).1.marker_set = true ∧
      (broadcast_article true "" subs chok sok a).2 = mark_article_broadcasted a) := by
  refine ⟨?_, ?_, ?_, ?_, ?_, ?_⟩
  · intro store limit a hmem
    have h2 := (List.mem_filter.mp (List.mem_of_mem_take hmem)).2
    rw [broadcast_query, Bool.and_eq_true] at h2
    refine ⟨by simpa using h2.1, ?_⟩
    intro hmark
    rw [hmark] at h2
    simpa using h2.2
  · intro store limit a h
    exact marker_not_selected h
  · intro a
    rfl
  · intro store limit a
    exact marker_not_selected rfl
  · intro ch subs chok sok a ht hch
    simp only [broadcast_article, ht, hch]
    cases chok <;> simp [hch]
  · intro subs chok sok a ht hsubs
    simp [broadcast_article, ht, hsubs]

/-- Witness for C8: a concrete broadcastable article gets its marker
written by a channel-mode attempt whose single send fails, and once
marked it is excluded from a store that contains it. -/
theorem C8_at_most_one_dispatch_witness :
    (broadcast_article true "chan" [] false (fun _ => false)
      sample_broadcastable).1.marker_set = true ∧
    mark_article_broadcasted sample_broadcastable ∉
      get_articles_to_broadcast [mark_article_broadcasted sample_broadcastable] 10 :=
  ⟨(C8_at_most_one_dispatch.2.2.2.2.1 "chan" [] false (fun _ => false)
      sample_broadcastable (by decide) (by decide)).1,
   C8_at_most_one_dispatch.2.2.2.1 [mark_article_broadcasted sample_broadcastable]
     10 sample_broadcastable⟩

/-- Claim C9: inserting a batch of two articles with the same origin URL
into a store that does not yet contain that URL reports exactly one
inserted and one duplicate, and the duplicate attempt leaves the store
exactly as it was after the first insert — one article longer than
before. -/
theorem C9_duplicate_ingestion (store : List Article) (a b : Article)
    (hurl : a.url = b.url) (hfresh : ∀ c ∈ store, c.url ≠ a.url) :
    (insert_articles store [a, b]).2 = ⟨1, 1, 0⟩ ∧
    (insert_articles store [a, b]).1.length = store.length + 1 ∧
    (insert_articles store [a, b]).1 = (insert_articles store [a]).1 := by
  have h1 : (store.any fun c => c.url == a.url) = false := by
    rw [List.any_eq_false]
    intro c hc
    simpa using hfresh c hc
  have e1 : insert_one_article store a =
      (store ++ [with_status a "raw"], .inserted) := by
    simp [insert_one_article, h1]
  have h2 : ((store ++ [with_status a "raw"]).any fun c => c.url == b.url) = true := by
    rw [List.any_eq_true]
    exact ⟨with_status a "raw",
      List.mem_append_right _ (List.mem_singleton.mpr rfl),
      by simp [with_status, hurl]⟩
  have e2 : insert_one_article (store ++ [with_status a "raw"]) b =
      (store ++ [with_status a "raw"], .duplicate) := by
    simp [insert_one_article, h2]
  refine ⟨?_, ?_, ?_⟩ <;> simp [insert_articles, e1, e2]

/-- Witness for C9 at an empty store and two articles sharing one URL. -/
theorem C9_duplicate_ingestion_witness :
    (insert_articles [] [sample_raw "https://x/9", sample_raw "https://x/9"]).2
      = ⟨1, 1, 0⟩ ∧
    (insert_articles [] [sample_raw "https://x/9", sample_raw "https://x/9"]).1.length
      = ([] : List Article).length + 1 :=
  ⟨(C9_duplicate_ingestion [] (sample_raw "https://x/9") (sample_raw "https://x/9")
      rfl (by simp)).1,
   (C9_duplicate_ingestion [] (sample_raw "https://x/9") (sample_raw "https://x/9")
      rfl (by simp)).2.1⟩

/-- Claim C10: with broadcasting enabled, an article whose telegram teaser
is empty or absent makes `broadcast_article` return sent 0 and failed 0,
contact no endpoint, leave the delivery marker unwritten and the document
unchanged; and since the broadcast selection filters only on status and
the marker, a processed unmarked article still satisfies the selection
predicate and is selected again on every subsequent cycle. -/
theorem C10_empty_teaser_requeued :
    (∀ (ch : String) (subs : List Subscriber) (chok : Bool) (sok : Nat → Bool)
      (a : Article), teaser_of a = [] →
      broadcast_article true ch subs chok sok a = (⟨0, 0, false, 0⟩, a)) ∧
    (∀ a : Article, a.status = "processed" → a.telegram_broadcast ≠ some true →
      broadcast_query a = true) ∧
    (∀ a : Article, a.status = "processed" → a.telegram_broadcast ≠ some true →
      a ∈ get_articles_to_broadcast [a] 10) := by
  refine ⟨?_, ?_, ?_⟩
  · intro ch subs chok sok a ht
    simp [broadcast_article, ht]
  · intro a hs hm
    simp [broadcast_query, hs, hm]
  · intro a hs hm
    have hq : broadcast_query a = true := by simp [broadcast_query, hs, hm]
    simp [get_articles_to_broadcast, List.filter_cons, hq]

/-- Witness for C10: the concrete teaser-less processed article is
returned untouched with zero counts and still matches the selection. -/
theorem C10_empty_teaser_requeued_witness :
    broadcast_article true "chan" [⟨some 1⟩] true (fun _ => true) sample_no_teaser
      = (⟨0, 0, false, 0⟩, sample_no_teaser) ∧
    broadcast_query sample_no_teaser = true ∧
    sample_no_teaser ∈ get_articles_to_broadcast [sample_no_teaser] 10 :=
  ⟨C10_empty_teaser_requeued.1 "chan" [⟨some 1⟩] true (fun _ => true)
      sample_no_teaser (by decide),
   C10_empty_teaser_requeued.2.1 sample_no_teaser (by decide) (by decide),
   C10_empty_teaser_requeued.2.2 sample_no_teaser (by decide) (by decide)⟩

end LLMNews
